import Mathlib

/-!
Verification development for the pandas-to-polars cookbook repository.

Each chapter of the repository is a standalone script that reads CSV data,
applies a handful of dataframe-library transformations, and plots results.
The definitions below are shallow embeddings of the data transformations and
of the file-level input/output behaviour of the chapter scripts.  Dataframes
are embedded as association lists from column names to columns of optional
cells (a missing value, pandas NaN or polars null, is modelled as none).
-/

namespace Cookbook

/-! ### Chapter 7: cleaning up messy zip codes -/

/-- Python string slicing s[0:5], the meaning of pandas str.slice(0, 5) and
polars str.slice(0, 5): the first five characters (code points) of a string,
or the whole string when it is shorter. -/
def take5 (s : String) : String := String.mk (s.data.take 5)

/-- Second statement of fix_zip_codes: the pandas assignment
zips[zips == "00000"] = np.nan, and equally the polars expression
pl.when(col == "00000").then(None).otherwise(col), applied to one cell. -/
def zipStep (v : Option String) : Option String :=
  if v = some "00000" then none else v

/-- Chapter 7, fix_zip_codes (pandas): truncate every zip to its first five
characters with str.slice(0, 5) (missing values stay missing), then replace
the value "00000" by a missing value.  A pandas series of zip strings is
embedded as a list of optional strings. -/
def fix_zip_codes (zips : List (Option String)) : List (Option String) :=
  let zips1 := zips.map (Option.map take5)
  zips1.map zipStep

/-- A polars or pandas dataframe, embedded as an association list from column
names to columns; each cell is an optional value. -/
abbrev Frame (α : Type) := List (String × List (Option α))

/-- Column lookup, the meaning of pl.col(name) on a concrete frame.  On a
frame that lacks the column polars would raise; the empty column returned
here never arises in the theorems below, which only apply getCol to frames
that contain the requested column. -/
def getCol {α : Type} (data : Frame α) (name : String) : List (Option α) :=
  match data.find? (fun c => c.1 == name) with
  | some c => c.2
  | none => []

/-- with_columns with a single named expression: replace the column of that
name when it exists, otherwise append it as a new column. -/
def withColumn {α : Type} (data : Frame α) (name : String) (cells : List (Option α)) :
    Frame α :=
  if data.any (fun c => c.1 == name) then
    data.map (fun c => if c.1 == name then (name, cells) else c)
  else data ++ [(name, cells)]

/-- Chapter 7, pl_fix_zip_codes (polars).  Transcribed exactly from the
source: both with_columns calls pass the expression through the Python
keyword argument zip_column=, so polars names the output column with the
literal string "zip_column" rather than the value of the zip_column
variable.  The slicer expression reads pl.col(zip_column); the condition
expression is pl.when(pl.col(zip_column) == "00000").then(None)
.otherwise(zip_column), and in when/then/otherwise a plain Python string is
interpreted by polars as a column name, so otherwise refers again to the
unsliced zip_column column of the frame. -/
def pl_fix_zip_codes (data : Frame String) (zip_column : String) : Frame String :=
  let slicer := (getCol data zip_column).map (Option.map take5)
  let data1 := withColumn data "zip_column" slicer
  let condition := (getCol data1 zip_column).map zipStep
  withColumn data1 "zip_column" condition

/-- A one-row, one-column frame holding a nine-digit zip with a dash, a value
that appears verbatim in the 311 dataset discussion of Chapter 7. -/
def zipFrame1 : Frame String := [("Incident Zip", [some "29616-0759"])]

/-- Chapter 7: the sentinel list passed as na_values to pandas read_csv and
as null_values to polars read_csv. -/
def na_values : List String := ["NO CLUE", "N/A", "0"]

/-- The default missing-value strings of pandas read_csv (keep_default_na is
left at its default True in the source, so these are recognised in addition
to the na_values list). -/
def pandasDefaultNA : List String :=
  ["", "#N/A", "#N/A N/A", "#NA", "-1.#IND", "-1.#QNAN", "-NaN", "-nan",
   "1.#IND", "1.#QNAN", "<NA>", "N/A", "NA", "NULL", "NaN", "None", "n/a",
   "nan", "null"]

/-- One cell of pandas read_csv with dtype str for the column: the cell is
missing exactly when the raw text is a default NA string or one of the
supplied na_values. -/
def pdReadCell (nas : List String) (raw : String) : Option String :=
  if raw ∈ pandasDefaultNA ∨ raw ∈ nas then none else some raw

/-- One cell of polars read_csv with dtypes str for the column: the cell is
null exactly when the raw text is one of the supplied null_values. -/
def plReadCell (nas : List String) (raw : String) : Option String :=
  if raw ∈ nas then none else some raw

/-- Reading a whole raw CSV column with pandas na_values. -/
def pdReadColumn (nas : List String) (raws : List String) : List (Option String) :=
  raws.map (pdReadCell nas)

/-- Reading a whole raw CSV column with polars null_values. -/
def plReadColumn (nas : List String) (raws : List String) : List (Option String) :=
  raws.map (plReadCell nas)

/-- Chapter 7, the zero-zip cleanup applied to the Incident Zip column:
requests.loc[requests["Incident Zip"] == "00000", "Incident Zip"] = np.nan
in pandas, and the corresponding when/then/otherwise in polars. -/
def setZeroZipsToNull (col : List (Option String)) : List (Option String) :=
  col.map zipStep

/-- Python s.startswith(p), pandas str.startswith(p) and polars
str.starts_with(p) on one non-missing cell. -/
def startsWith (p s : String) : Bool := p.data.isPrefixOf s.data

/-- A vectorised startswith over an optional cell: missing propagates, as in
both pandas str.startswith and polars str.starts_with. -/
def startsCol (p : String) (z : Option String) : Option Bool :=
  z.map (fun s => startsWith p s)

/-- The pandas or-operator on object-dtype boolean series: a missing operand
is treated as False. -/
def pdOrNA (a b : Option Bool) : Bool := (a.getD false) || (b.getD false)

/-- Chapter 7, the pandas far-zip mask for one cell:
is_far = ~(zips.str.startswith("0") | zips.str.startswith("1")) & zips.notnull(). -/
def pd_is_far (z : Option String) : Bool :=
  !(pdOrNA (startsCol "0" z) (startsCol "1" z)) && z.isSome

/-- Kleene three-valued disjunction, the polars | on Boolean expressions. -/
def kleeneOr : Option Bool → Option Bool → Option Bool
  | some true, _ => some true
  | _, some true => some true
  | some false, some false => some false
  | _, _ => none

/-- Kleene three-valued conjunction, the polars & on Boolean expressions. -/
def kleeneAnd : Option Bool → Option Bool → Option Bool
  | some false, _ => some false
  | _, some false => some false
  | some true, some true => some true
  | _, _ => none

/-- Kleene negation, the polars ~ on Boolean expressions. -/
def kleeneNot (a : Option Bool) : Option Bool := a.map (fun b => !b)

/-- Chapter 7, the polars far-zip expression for one cell:
pl_is_far = ~(starts_with("0") | starts_with("1")) & is_not_null().
The is_not_null expression is never null itself. -/
def pl_is_far (z : Option String) : Option Bool :=
  kleeneAnd (kleeneNot (kleeneOr (startsCol "0" z) (startsCol "1" z))) (some z.isSome)

/-- A polars filter keeps a row exactly when its predicate evaluates to
true; rows where the predicate is null are dropped. -/
def plFarKeep (z : Option String) : Bool := pl_is_far z == some true

/-! ### Chapter 5: cleaning the downloaded weather data (polars state) -/

/-- Python str.lower applied to a column name. -/
def strLower (s : String) : String := String.mk (s.data.map Char.toLower)

/-- The four redundant columns dropped by clean_data and pl_clean_data. -/
def cleanDropCols : List String := ["Year", "Month", "Day", "Time (LST)"]

/-- The rename mapping of pl_clean_data, transcribed from the source. -/
def ch5RenameMap : List (String × String) :=
  [("Longitude (x)", "Longitude"),
   ("Latitude (y)", "Latitude"),
   ("Station Name", "Station_Name"),
   ("Climate ID", "Climate_ID"),
   ("Date/Time (LST)", "Date_Time"),
   ("Temp (°C)", "Temperature_C"),
   ("Dew Point Temp (°C)", "Dew_Point_Temp_C"),
   ("Rel Hum (%)", "Relative_Humidity"),
   ("Wind Spd (km/h)", "Wind_Speed_kmh"),
   ("Visibility (km)", "Visibility_km"),
   ("Stn Press (kPa)", "Station_Pressure_kPa"),
   ("Weather", "Weather")]

/-- Chapter 5, drop_null_columns (polars helper): compute the columns with a
positive null count and drop them.  The drop here always succeeds because
the dropped names are taken from the columns of the frame itself. -/
def drop_null_columns {α : Type} (data : Frame α) : Frame α :=
  let null_columns :=
    (data.filter (fun c => 0 < (c.2.filter (fun v => v.isNone)).length)).map (fun c => c.1)
  data.filter (fun c => !(null_columns.contains c.1))

/-- polars DataFrame.drop on a list of column names.  polars drop is strict
by default: it raises when any named column is absent from the frame, which
is modelled as none. -/
def dropCols {α : Type} (data : Frame α) (names : List String) : Option (Frame α) :=
  if names.all (fun n => data.any (fun c => c.1 == n)) then
    some (data.filter (fun c => !(names.contains c.1)))
  else none

/-- polars DataFrame.rename with a mapping.  polars rename is strict by
default: it raises when a key of the mapping names no column of the frame,
which is modelled as none; a column not mentioned by the mapping keeps its
name. -/
def renameCols {α : Type} (data : Frame α) (m : List (String × String)) :
    Option (Frame α) :=
  if m.all (fun p => data.any (fun c => c.1 == p.1)) then
    some (data.map (fun c =>
      (((m.find? (fun p => p.1 == c.1)).map (fun p => p.2)).getD c.1, c.2)))
  else none

/-- Lowercasing every column name of a frame, the meaning of
frame.columns = [col.lower() for col in frame.columns]. -/
def lowercaseCols {α : Type} (data : Frame α) : Frame α :=
  data.map (fun c => (strLower c.1, c.2))

/-- The module-level state of the Chapter 5 script that pl_clean_data can
reach: the global variable pl_weather_mar2012. -/
structure PLState where
  pl_weather_mar2012 : Frame ℚ
deriving DecidableEq

/-- Chapter 5, pl_clean_data, transcribed from the source together with its
effect on the module state: the body drops null columns, then (strictly)
drops the four redundant columns and renames via ch5RenameMap on its local
data, propagating the polars errors of drop and rename when a referenced
column is absent; on success, its lowercasing statement assigns the
lowercased names to the columns of the module-level variable
pl_weather_mar2012 instead of to the local data, and the function returns
the local data with unlowercased names. -/
def pl_clean_data (data : Frame ℚ) (st : PLState) : Option (Frame ℚ × PLState) := do
  let data1 := drop_null_columns data
  let data2 ← dropCols data1 cleanDropCols
  let data3 ← renameCols data2 ch5RenameMap
  let st1 : PLState := ⟨lowercaseCols st.pl_weather_mar2012⟩
  some (data3, st1)

/-- A concrete frame shaped like the downloaded March 2012 weather data
after CSV parsing: it holds all four redundant columns, all twelve rename
keys (with non-null cells, so drop_null_columns keeps them and the strict
drop and rename succeed) and one fully null column for drop_null_columns to
remove. -/
def c9Frame : Frame ℚ :=
  [("Longitude (x)", [some 1]), ("Latitude (y)", [some 2]),
   ("Station Name", [some 3]), ("Climate ID", [some 4]),
   ("Date/Time (LST)", [some 5]), ("Year", [some 2012]),
   ("Month", [some 3]), ("Day", [some 1]), ("Time (LST)", [some 0]),
   ("Temp (°C)", [some 6]), ("Dew Point Temp (°C)", [some 7]),
   ("Rel Hum (%)", [some 8]), ("Wind Spd (km/h)", [some 9]),
   ("Visibility (km)", [some 10]), ("Stn Press (kPa)", [some 11]),
   ("Weather", [some 12]), ("Junk", [none])]

/-- The frame pl_clean_data returns on c9Frame: renamed per ch5RenameMap,
names not lowercased. -/
def c9Result : Frame ℚ :=
  [("Longitude", [some 1]), ("Latitude", [some 2]),
   ("Station_Name", [some 3]), ("Climate_ID", [some 4]),
   ("Date_Time", [some 5]), ("Temperature_C", [some 6]),
   ("Dew_Point_Temp_C", [some 7]), ("Relative_Humidity", [some 8]),
   ("Wind_Speed_kmh", [some 9]), ("Visibility_km", [some 10]),
   ("Station_Pressure_kPa", [some 11]), ("Weather", [some 12])]

/-- A concrete module state for evaluating pl_clean_data. -/
def c9State : PLState := ⟨[("Foo", [some 0])]⟩

/-! ### File-level input and output of the chapter scripts -/

/-- The chapter scripts of the repository. -/
inductive Chapter
  | ch1 | ch2 | ch3 | ch5 | ch6 | ch7 | ch8
deriving DecidableEq, Fintype

/-- One external input or output event of a chapter script: a read of a file
path or URL, or a write of a file path. -/
inductive Ev
  | read (path : String)
  | write (path : String)
deriving DecidableEq

def servicePath : String := "../data/311-service-requests.csv"

def bikesPath : String := "../data/bikes.csv"

def weatherPath : String := "../data/weather_2012.csv"

def plWeatherPath : String := "../data/pl_weather_2012.csv"

def popconPath : String := "../data/popularity-contest"

/-- The weather-station bulk-data URL for a given year and month, the result
of url_template.format(year=year, month=month) in Chapter 5. -/
def urlFor (year month : Nat) : String :=
  "http://climate.weather.gc.ca/climate_data/bulk_data_e.html?format=csv&stationID=5415&Year="
    ++ toString year ++ "&Month=" ++ toString month
    ++ "&timeframe=1&submit=Download+Data"

/-- The twelve monthly URL reads of the Chapter 5 list comprehension
[download_weather_month(2012, i) for i in range(1, 13)]. -/
def monthUrls : List Ev := (List.range' 1 12).map (fun m => Ev.read (urlFor 2012 m))

/-- The external input and output events of each chapter script, in program
order, transcribed from the read_csv, scan_csv, to_csv and write_csv calls
in the source (plot calls touch no files). -/
def events : Chapter → List Ev
  | .ch1 => [.read bikesPath, .read bikesPath, .read bikesPath, .read bikesPath]
  | .ch2 => [.read servicePath, .read servicePath]
  | .ch3 => [.read servicePath, .read servicePath]
  | .ch5 =>
      [.read weatherPath, .read weatherPath,
       .read (urlFor 2012 3), .read (urlFor 2012 3),
       .read (urlFor 2012 1)]
      ++ monthUrls ++ monthUrls
      ++ [.write weatherPath, .write plWeatherPath]
  | .ch6 => [.read weatherPath, .read weatherPath]
  | .ch7 => [.read servicePath, .read servicePath, .read servicePath,
             .read servicePath, .read servicePath, .read servicePath]
  | .ch8 => [.read popconPath, .read popconPath, .read popconPath, .read popconPath]

def isWrite : Ev → Bool
  | .write _ => true
  | .read _ => false

def pathOf : Ev → String
  | .read p => p
  | .write p => p

/-- The file paths and URLs a chapter script reads. -/
def inputs (c : Chapter) : List String :=
  ((events c).filter (fun e => !isWrite e)).map pathOf

/-- The file paths a chapter script writes. -/
def outputs (c : Chapter) : List String :=
  ((events c).filter isWrite).map pathOf

/-! ### Chapter 2: the most common complaint types -/

/-- A (complaint type, count) pair. -/
abbrev CPair := String × Nat

/-- The multiset of value counts of a column, listed in order of first
appearance: the groups underlying pandas value_counts and polars
value_counts before any sorting. -/
def countsOf (col : List String) : List CPair :=
  col.foldl
    (fun acc s =>
      if acc.any (fun p => p.1 == s) then
        acc.map (fun p => if p.1 == s then (p.1, p.2 + 1) else p)
      else acc ++ [(s, 1)])
    []

/-- Ordering pairs by descending count, the sort key of both pipelines. -/
def countDesc : CPair → CPair → Prop := fun a b => b.2 ≤ a.2

instance : DecidableRel countDesc := fun a b => Nat.decLe b.2 a.2

instance : IsTotal CPair countDesc := ⟨fun a b => Nat.le_total b.2 a.2⟩

instance : IsTrans CPair countDesc := ⟨fun _ _ _ h1 h2 => Nat.le_trans h2 h1⟩

/-- Strictly descending counts. -/
def countDescStrict : CPair → CPair → Prop := fun a b => b.2 < a.2

instance : IsAntisymm CPair countDescStrict :=
  ⟨fun _ _ h1 h2 => (Nat.lt_asymm h1 h2).elim⟩

/-- Chapter 2, pandas: complaints["Complaint Type"].value_counts()[:10].
pandas sorts the counts descending over the first-appearance order and the
script takes the first ten rows. -/
def pandas_top10 (col : List String) : List CPair :=
  (List.insertionSort countDesc (countsOf col)).take 10

/-- Chapter 2, polars: value_counts().sort("count", descending=True)
.head(10), applied to the rows that polars value_counts returned; polars
documents the row order of value_counts as arbitrary, so the input here is
any permutation of the value counts. -/
def pl_top10 (counted : List CPair) : List CPair :=
  (List.insertionSort countDesc counted).take 10

/-! ### Chapter 6: monthly median temperatures -/

/-- One weather row, abstracted to the claim: the calendar month index of
its date_time value (year times twelve plus month) and its temperature_c
cell, which can be missing (pandas NaN, polars null).  Both pipelines
partition rows by calendar month: pandas resample with rule M bins by month
(labelling bins with the month end) and polars group_by_dynamic with every
1mo windows by month (labelling windows with the month start). -/
abbrev WRow := Nat × Option ℚ

def monthsOf (rows : List WRow) : List Nat := rows.map (fun r => r.1)

/-- Whether the date_time column is sorted, month-wise: polars
group_by_dynamic requires its index column to be sorted and raises on
unsorted data. -/
def monthsSorted : List Nat → Bool
  | [] => true
  | [_] => true
  | a :: b :: t => (a ≤ b) && monthsSorted (b :: t)

/-- The temperature cells of the rows that fall in calendar month m. -/
def valuesIn (m : Nat) (rows : List WRow) : List (Option ℚ) :=
  (rows.filter (fun r => r.1 == m)).map (fun r => r.2)

/-- The statistical median used by both np.median and polars median: sort,
take the middle element for odd length and the mean of the two middle
elements for even length; none on the empty list (the NaN that pandas shows
for an empty resample bin). -/
def medianQ (l : List ℚ) : Option ℚ :=
  let s := List.insertionSort (fun a b : ℚ => a ≤ b) l
  if l.length % 2 = 1 then s.get? (l.length / 2)
  else
    match s.get? (l.length / 2 - 1), s.get? (l.length / 2) with
    | some a, some b => some ((a + b) / 2)
    | _, _ => none

def minMonth (rows : List WRow) : Nat :=
  match monthsOf rows with
  | [] => 0
  | m :: ms => ms.foldl min m

def maxMonth (rows : List WRow) : Nat :=
  match monthsOf rows with
  | [] => 0
  | m :: ms => ms.foldl max m

/-- np.median over the cells of one resample bin: NaN when the bin is empty
or contains any NaN (np.median does not skip NaN), otherwise the median of
the values. -/
def pd_median_np (vals : List (Option ℚ)) : Option ℚ :=
  if vals.any (fun v => v.isNone) then none
  else medianQ (vals.filterMap id)

/-- polars median over the cells of one group: nulls are skipped, and the
result is null only when every cell of the group is null. -/
def pl_median (vals : List (Option ℚ)) : Option ℚ :=
  medianQ (vals.filterMap id)

/-- Chapter 6, pandas: temperature_c resampled with rule M and aggregated
with np.median.  pandas emits one bin per calendar month from the earliest
to the latest month of the data, an empty bin holding NaN; each bin is keyed
here by its calendar month index.  resample sorts by the DatetimeIndex, so
unsorted input still bins by month. -/
def pandas_resample_M_median (rows : List WRow) : List (Nat × Option ℚ) :=
  if rows.isEmpty then []
  else
    (List.range' (minMonth rows) (maxMonth rows + 1 - minMonth rows)).map
      (fun m => (m, pd_median_np (valuesIn m rows)))

/-- Chapter 6, polars: group_by_dynamic on date_time with every 1mo,
aggregating the median of temperature_c.  group_by_dynamic requires the
date_time column to be sorted and raises otherwise (modelled as none); on
sorted data polars emits one window per calendar month that contains data,
in ascending time order, each window keyed here by its calendar month
index. -/
def pl_group_by_dynamic_median (rows : List WRow) : Option (List (Nat × Option ℚ)) :=
  if monthsSorted (monthsOf rows) then
    some ((monthsOf rows).dedup.map (fun m => (m, pl_median (valuesIn m rows))))
  else none

/-- Concrete weather rows: two temperatures in month 0 and one in month 1,
in sorted order with no missing cell. -/
def c5Rows : List WRow := [(0, some 1), (0, some 3), (1, some 5)]

/-- Sorted weather rows whose month 0 contains a missing temperature next
to a present one. -/
def c5RowsNull : List WRow := [(0, some 1), (0, none)]

/-- Weather rows with an unsorted date_time column. -/
def c5RowsUnsorted : List WRow := [(1, some 5), (0, some 1)]

/-! ### Chapter 8: Unix timestamps -/

def int64Lo : Int := -(2 ^ 63)

def int64Hi : Int := 2 ^ 63 - 1

/-- Two-complement wrap-around to the signed 64-bit range, the silent
overflow behaviour of polars Int64 arithmetic. -/
def wrap64 (z : Int) : Int := (z + 2 ^ 63) % 2 ^ 64 - 2 ^ 63

/-- Chapter 8, pandas: pd.to_datetime(s, unit="s") on an int64 second count.
pandas converts to a datetime64[ns] value of s times ten to the ninth
nanoseconds and raises OutOfBoundsDatetime when that product leaves the
signed 64-bit range; the raise is modelled as none. -/
def pd_to_datetime_unit_s (s : Int) : Option Int :=
  if int64Lo ≤ s * 10 ^ 9 ∧ s * 10 ^ 9 ≤ int64Hi then some (s * 10 ^ 9) else none

/-- Chapter 8, polars: (pl.col * 1000).cast(pl.Datetime("ms")) on an int64
second count: the physical millisecond count, with 64-bit wrap-around on the
multiplication. -/
def pl_cast_ms (s : Int) : Int := wrap64 (s * 1000)

/-- The instant denoted by the polars Datetime("ms") value, in nanoseconds
since the epoch, for comparison with the pandas datetime64[ns] value. -/
def pl_instant_ns (s : Int) : Int := pl_cast_ms s * 10 ^ 6

/-! ### Helper lemmas -/

/-- Truncating to five characters is idempotent. -/
theorem take5_idem (s : String) : take5 (take5 s) = take5 s := by
  simp [take5, List.take_take]

/-- The cell-level transformation of fix_zip_codes is idempotent. -/
theorem fixZipCell_idem (v : Option String) :
    zipStep (Option.map take5 (zipStep (Option.map take5 v))) =
      zipStep (Option.map take5 v) := by
  cases v with
  | none => rfl
  | some s =>
    by_cases h : take5 s = "00000"
    · simp [zipStep, h]
    · simp [zipStep, h, take5_idem]

/-! ### Claim C10 -/

/-- Claim C10 (confirmed): fix_zip_codes is idempotent; applying the pandas
cleanup twice to a series of optional zip strings gives the same series as
applying it once. -/
theorem C10_fix_zip_codes_idempotent (zips : List (Option String)) :
    fix_zip_codes (fix_zip_codes zips) = fix_zip_codes zips := by
  unfold fix_zip_codes
  simp only [List.map_map]
  induction zips with
  | nil => rfl
  | cons v t ih =>
    simp only [List.map_cons, ih]
    have := fixZipCell_idem v
    simp only [Function.comp] at *
    rw [this]

/-! ### Claim C1 -/

/-- Claim C1 (code bug in pl_fix_zip_codes): on a frame whose Incident Zip
column holds the nine-digit value "29616-0759", the polars cleanup leaves
the Incident Zip column unchanged and instead writes the value into a new
column literally named "zip_column" (untruncated, because the second
with_columns overwrites the sliced column with the when/then/otherwise of
the original column), while the pandas fix_zip_codes truncates the value to
"29616" as the claim states. -/
theorem C1_pl_fix_zip_codes_eval :
    getCol (pl_fix_zip_codes zipFrame1 "Incident Zip") "Incident Zip"
        = [some "29616-0759"] ∧
    getCol (pl_fix_zip_codes zipFrame1 "Incident Zip") "zip_column"
        = [some "29616-0759"] ∧
    fix_zip_codes [some "29616-0759"] = [some "29616"] ∧
    ("29616-0759" : String) ≠ "29616" := by
  refine ⟨rfl, rfl, rfl, ?_⟩
  decide

/-! ### Claim C3 -/

/-- Claim C3 (confirmed): with the sentinel list na_values passed to pandas
read_csv (na_values) and polars read_csv (null_values), every cell whose raw
text is one of the sentinels is read as missing, and the zero-zip cleanup
maps every Incident Zip cell equal to "00000" to a missing value. -/
theorem C3_sentinels_become_missing :
    (∀ raws : List String, ∀ i : Nat, ∀ s : String,
      raws.get? i = some s → s ∈ na_values →
        (pdReadColumn na_values raws).get? i = some none ∧
        (plReadColumn na_values raws).get? i = some none) ∧
    (∀ col : List (Option String), ∀ i : Nat,
      col.get? i = some (some "00000") →
        (setZeroZipsToNull col).get? i = some none) := by
  constructor
  · intro raws i s hi hs
    have hcell : pdReadCell na_values s = none ∧ plReadCell na_values s = none := by
      fin_cases hs <;> exact ⟨by decide, by decide⟩
    constructor
    · unfold pdReadColumn
      rw [List.get?_map, hi, Option.map_some', hcell.1]
    · unfold plReadColumn
      rw [List.get?_map, hi, Option.map_some', hcell.2]
  · intro col i hi
    unfold setZeroZipsToNull
    rw [List.get?_map, hi, Option.map_some']
    decide

/-- Claim C3 witness: the sentinel "N/A" at position 0 of a raw column is
read as missing by both readers, and a "00000" cell becomes missing. -/
theorem C3_sentinels_witness :
    (pdReadColumn na_values ["N/A"]).get? 0 = some none ∧
    (plReadColumn na_values ["N/A"]).get? 0 = some none ∧
    (setZeroZipsToNull [some "00000"]).get? 0 = some none := by
  refine ⟨(C3_sentinels_become_missing.1 ["N/A"] 0 "N/A" rfl (by decide)).1,
          (C3_sentinels_become_missing.1 ["N/A"] 0 "N/A" rfl (by decide)).2,
          C3_sentinels_become_missing.2 [some "00000"] 0 rfl⟩

/-! ### Claim C7 -/

/-- Claim C7 (confirmed): for every optional Incident Zip cell, the pandas
far mask ~(startswith 0 or startswith 1) and notnull agrees with the polars
filter ~(starts_with 0 or starts_with 1) and is_not_null, and both select a
row exactly when the zip is non-missing and starts with neither "0" nor
"1". -/
theorem C7_far_zip_selections_agree (z : Option String) :
    (pd_is_far z = plFarKeep z) ∧
    (pd_is_far z = true ↔
      ∃ s, z = some s ∧ startsWith "0" s = false ∧ startsWith "1" s = false) := by
  cases z with
  | none =>
    constructor
    · rfl
    · simp [pd_is_far, pdOrNA, startsCol]
  | some s =>
    cases h0 : startsWith "0" s <;> cases h1 : startsWith "1" s <;>
      simp [pd_is_far, plFarKeep, pl_is_far, kleeneAnd, kleeneOr, kleeneNot,
            pdOrNA, startsCol, h0, h1]

/-! ### Claim C9 -/

/-- Claim C9 (code bug in pl_clean_data): on a frame shaped like the real
March 2012 download (holding every column that the strict drop and rename
reference, so both succeed), pl_clean_data drops the null column, drops the
four redundant columns and renames per its mapping, but it returns the
frame with its names not lowercased, and it modifies the module-level
variable pl_weather_mar2012 (lowercasing the names of that unrelated
frame), contrary to the cleanup being local to its argument. -/
theorem C9_pl_clean_data_eval :
    pl_clean_data c9Frame c9State = some (c9Result, ⟨[("foo", [some (0 : ℚ)])]⟩) ∧
    lowercaseCols c9Result ≠ c9Result ∧
    (⟨[("foo", [some (0 : ℚ)])]⟩ : PLState) ≠ c9State := by
  refine ⟨?_, ?_, ?_⟩ <;> decide

/-! ### Claim C2 -/

/-- Claim C2 counterexample: Chapter 5 writes ../data/weather_2012.csv and
Chapter 6 reads that same path as its input, so one chapter does read data
that another chapter produced. -/
theorem C2_counterexample :
    weatherPath ∈ outputs Chapter.ch5 ∧
    weatherPath ∈ inputs Chapter.ch6 ∧
    Chapter.ch5 ≠ Chapter.ch6 := by
  decide

/-- Claim C2 (corrected): the chapter scripts share no runtime state, but
there is exactly one cross-chapter file dependency: whenever the output file
of one chapter is an input file of a different chapter, the producer is
Chapter 5, the consumer is Chapter 6 and the file is
../data/weather_2012.csv. -/
theorem C2_amended (c c' : Chapter) (hne : c ≠ c') :
    ∀ p ∈ outputs c, p ∈ inputs c' →
      c = Chapter.ch5 ∧ c' = Chapter.ch6 ∧ p = weatherPath := by
  revert hne
  revert c c'
  decide

/-- Claim C2 amended witness: the theorem applied to the one concrete
cross-chapter dependency. -/
theorem C2_amended_witness :
    Chapter.ch5 = Chapter.ch5 ∧ Chapter.ch6 = Chapter.ch6 ∧
      weatherPath = weatherPath :=
  C2_amended Chapter.ch5 Chapter.ch6 (by decide) weatherPath (by decide) (by decide)

/-! ### Claim C8 -/

/-- Claim C8 counterexample: the write events of Chapter 5 name two distinct
CSV files, ../data/weather_2012.csv (pandas to_csv) and
../data/pl_weather_2012.csv (polars write_csv), not a single file. -/
theorem C8_counterexample :
    outputs Chapter.ch5 = [weatherPath, plWeatherPath] ∧
    weatherPath ≠ plWeatherPath := by
  decide

/-- Claim C8 (corrected): the only writes to the external boundary are the
two CSV files written by the last two operations of Chapter 5; every other
chapter performs no write, and no operation of Chapter 5 before those final
two writes a file. -/
theorem C8_amended :
    (∀ c : Chapter, c = Chapter.ch5 ∨ (events c).all (fun e => !isWrite e)) ∧
    ((events Chapter.ch5).take ((events Chapter.ch5).length - 2)).all
      (fun e => !isWrite e) ∧
    (events Chapter.ch5).drop ((events Chapter.ch5).length - 2) =
      [Ev.write weatherPath, Ev.write plWeatherPath] := by
  decide

/-! ### Claim C4 -/

/-- A list sorted by descending count whose counts are pairwise distinct is
sorted by strictly descending count. -/
theorem sorted_strict_of_distinct {L : List CPair}
    (hs : L.Sorted countDesc)
    (hd : L.Pairwise (fun a b => a.2 ≠ b.2)) :
    L.Sorted countDescStrict := by
  have hs' : L.Pairwise countDesc := hs
  exact (hs'.and hd).imp (fun h => lt_of_le_of_ne h.1 (Ne.symm h.2))

/-- Sorting by descending count is insensitive to the input order when the
counts are pairwise distinct: two permutations of the same value counts sort
to the same list. -/
theorem sort_countDesc_eq_of_perm {l1 l2 : List CPair}
    (hp : l1.Perm l2)
    (hd : l2.Pairwise (fun a b => a.2 ≠ b.2)) :
    List.insertionSort countDesc l1 = List.insertionSort countDesc l2 := by
  have hsym : ∀ {x y : CPair}, x.2 ≠ y.2 → y.2 ≠ x.2 := fun h => h.symm
  have p1 : (List.insertionSort countDesc l1).Perm l2 :=
    (List.perm_insertionSort countDesc l1).trans hp
  have p2 : (List.insertionSort countDesc l2).Perm l2 :=
    List.perm_insertionSort countDesc l2
  have hd1 : (List.insertionSort countDesc l1).Pairwise (fun a b => a.2 ≠ b.2) :=
    (List.Perm.pairwise_iff hsym p1).mpr hd
  have hd2 : (List.insertionSort countDesc l2).Pairwise (fun a b => a.2 ≠ b.2) :=
    (List.Perm.pairwise_iff hsym p2).mpr hd
  exact List.eq_of_perm_of_sorted (p1.trans p2.symm)
    (sorted_strict_of_distinct (List.sorted_insertionSort countDesc l1) hd1)
    (sorted_strict_of_distinct (List.sorted_insertionSort countDesc l2) hd2)

/-- Claim C4 counterexample: on a column with two complaint types of equal
count, polars value_counts may return the rows as the permutation
[(B, 1), (A, 1)] of the counts, and the polars pipeline then yields a
different ordered top-ten list than the pandas pipeline, so the two results
are not the same pairs in the same order for every input. -/
theorem C4_counterexample :
    ([(("B" : String), 1), ("A", 1)] : List CPair).Perm (countsOf ["A", "B"]) ∧
    pl_top10 [(("B" : String), 1), ("A", 1)] ≠ pandas_top10 ["A", "B"] := by
  constructor
  · decide
  · decide

/-- Claim C4 (amended): whenever the complaint-type counts are pairwise
distinct, the polars pipeline (value_counts in any row order, sorted by
count descending, first ten rows) returns exactly the same (type, count)
pairs in the same order as pandas value_counts truncated to ten rows; with
tied counts the order, and at the ten-row cutoff even the selection, can
differ. -/
theorem C4_top10_equiv (col : List String) (counted : List CPair)
    (hperm : counted.Perm (countsOf col))
    (hdist : (countsOf col).Pairwise (fun a b => a.2 ≠ b.2)) :
    pl_top10 counted = pandas_top10 col := by
  unfold pl_top10 pandas_top10
  rw [sort_countDesc_eq_of_perm hperm hdist]

/-- Claim C4 amended witness: a concrete column with distinct counts, with
polars value_counts returning the rows in reversed order. -/
theorem C4_top10_equiv_witness :
    ([(("B" : String), 1), ("A", 2)] : List CPair).Perm (countsOf ["A", "A", "B"]) ∧
    (countsOf ["A", "A", "B"]).Pairwise (fun a b : CPair => a.2 ≠ b.2) ∧
    pl_top10 [(("B" : String), 1), ("A", 2)] = pandas_top10 ["A", "A", "B"] :=
  ⟨by decide, by decide,
    C4_top10_equiv ["A", "A", "B"] [(("B" : String), 1), ("A", 2)]
      (by decide) (by decide)⟩

/-! ### Claim C5 -/

/-- Looking a key up in a list of pairs built by pairing each key with a
function of itself returns that function value whenever the key occurs. -/
theorem lookup_map_self {β : Type} (f : Nat → β) (L : List Nat) (m : Nat)
    (h : m ∈ L) :
    List.lookup m (L.map (fun x => (x, f x))) = some (f m) := by
  induction L with
  | nil => exact absurd h (List.not_mem_nil m)
  | cons a t ih =>
    by_cases hm : m = a
    · subst hm
      simp [List.lookup]
    · have hbeq : (m == a) = false := beq_eq_false_iff_ne.mpr hm
      have hmt : m ∈ t := (List.mem_cons.mp h).resolve_left hm
      simp only [List.map_cons, List.lookup, hbeq]
      exact ih hmt

/-- The median of a nonempty list of rationals exists. -/
theorem medianQ_isSome {l : List ℚ} (h : l ≠ []) : ∃ v, medianQ l = some v := by
  have hpos : 0 < l.length := List.length_pos.mpr h
  have hlen : (List.insertionSort (fun a b : ℚ => a ≤ b) l).length = l.length :=
    (List.perm_insertionSort (fun a b : ℚ => a ≤ b) l).length_eq
  unfold medianQ
  by_cases hodd : l.length % 2 = 1
  · have hidx : l.length / 2 < (List.insertionSort (fun a b : ℚ => a ≤ b) l).length := by
      rw [hlen]
      omega
    rw [if_pos hodd, List.get?_eq_get hidx]
    exact ⟨_, rfl⟩
  · have hidx1 : l.length / 2 - 1 < (List.insertionSort (fun a b : ℚ => a ≤ b) l).length := by
      rw [hlen]
      omega
    have hidx2 : l.length / 2 < (List.insertionSort (fun a b : ℚ => a ≤ b) l).length := by
      rw [hlen]
      omega
    rw [if_neg hodd, List.get?_eq_get hidx1, List.get?_eq_get hidx2]
    exact ⟨_, rfl⟩

/-- A calendar month that occurs in the data has at least one temperature. -/
theorem valuesIn_ne_nil {m : Nat} {rows : List WRow}
    (h : m ∈ monthsOf rows) : valuesIn m rows ≠ [] := by
  unfold monthsOf at h
  obtain ⟨r, hr, hrm⟩ := List.mem_map.mp h
  have hf : r ∈ rows.filter (fun r => r.1 == m) :=
    List.mem_filter.mpr ⟨hr, by simp [hrm]⟩
  unfold valuesIn
  intro hnil
  rw [List.map_eq_nil_iff] at hnil
  rw [hnil] at hf
  exact absurd hf (List.not_mem_nil r)

/-- Every month of the data is at least the smallest month. -/
theorem foldl_min_le_init (L : List Nat) : ∀ a : Nat, L.foldl min a ≤ a := by
  induction L with
  | nil => intro a; exact Nat.le_refl a
  | cons b t ih => intro a; exact Nat.le_trans (ih (min a b)) (Nat.min_le_left a b)

theorem foldl_min_le_mem (L : List Nat) :
    ∀ (a m : Nat), m ∈ L → L.foldl min a ≤ m := by
  induction L with
  | nil => intro a m h; exact absurd h (List.not_mem_nil m)
  | cons b t ih =>
    intro a m h
    rcases List.mem_cons.mp h with rfl | hm
    · exact Nat.le_trans (foldl_min_le_init t (min a m)) (Nat.min_le_right a m)
    · exact ih (min a b) m hm

theorem le_foldl_max_init (L : List Nat) : ∀ a : Nat, a ≤ L.foldl max a := by
  induction L with
  | nil => intro a; exact Nat.le_refl a
  | cons b t ih => intro a; exact Nat.le_trans (Nat.le_max_left a b) (ih (max a b))

theorem le_foldl_max_mem (L : List Nat) :
    ∀ (a m : Nat), m ∈ L → m ≤ L.foldl max a := by
  induction L with
  | nil => intro a m h; exact absurd h (List.not_mem_nil m)
  | cons b t ih =>
    intro a m h
    rcases List.mem_cons.mp h with rfl | hm
    · exact Nat.le_trans (Nat.le_max_right a m) (le_foldl_max_init t (max a m))
    · exact ih (max a b) m hm

theorem minMonth_le {rows : List WRow} {m : Nat}
    (h : m ∈ monthsOf rows) : minMonth rows ≤ m := by
  unfold minMonth
  cases hM : monthsOf rows with
  | nil => rw [hM] at h; exact absurd h (List.not_mem_nil m)
  | cons a t =>
    rw [hM] at h
    rcases List.mem_cons.mp h with rfl | hm
    · exact foldl_min_le_init t m
    · exact foldl_min_le_mem t a m hm

theorem maxMonth_ge {rows : List WRow} {m : Nat}
    (h : m ∈ monthsOf rows) : m ≤ maxMonth rows := by
  unfold maxMonth
  cases hM : monthsOf rows with
  | nil => rw [hM] at h; exact absurd h (List.not_mem_nil m)
  | cons a t =>
    rw [hM] at h
    rcases List.mem_cons.mp h with rfl | hm
    · exact le_foldl_max_init t m
    · exact le_foldl_max_mem t a m hm

/-- A column of cells that are all present has no missing cell. -/
theorem any_isNone_eq_false {vals : List (Option ℚ)}
    (hall : vals.all (fun v => v.isSome) = true) :
    vals.any (fun v => v.isNone) = false := by
  induction vals with
  | nil => rfl
  | cons a t ih =>
    rw [List.all_cons, Bool.and_eq_true] at hall
    rw [List.any_cons, ih hall.2, Bool.or_false]
    cases a with
    | none => exact absurd hall.1 (by decide)
    | some x => rfl

/-- Dropping the missing cells of a nonempty column of present cells leaves
a nonempty list of values. -/
theorem filterMap_id_ne_nil {vals : List (Option ℚ)} (hne : vals ≠ [])
    (hall : vals.all (fun v => v.isSome) = true) :
    vals.filterMap id ≠ [] := by
  cases vals with
  | nil => exact absurd rfl hne
  | cons a t =>
    rw [List.all_cons, Bool.and_eq_true] at hall
    cases a with
    | none => exact absurd hall.1 (by decide)
    | some x => simp

/-- Claim C5 counterexample: the two monthly-median computations are not
equivalent for every weather dataframe.  First, on sorted data whose month
0 holds the temperatures 1 and missing, polars ignores the null and reports
median 1 while pandas np.median over the bin containing NaN reports NaN.
Second, on an unsorted date_time column polars group_by_dynamic raises
while pandas resample still bins by month. -/
theorem C5_counterexample :
    (monthsSorted (monthsOf c5RowsNull) = true ∧
      pl_group_by_dynamic_median c5RowsNull = some [(0, some 1)] ∧
      List.lookup 0 (pandas_resample_M_median c5RowsNull) = some none ∧
      (some (1 : ℚ) : Option ℚ) ≠ none) ∧
    (monthsSorted (monthsOf c5RowsUnsorted) = false ∧
      pl_group_by_dynamic_median c5RowsUnsorted = none ∧
      pandas_resample_M_median c5RowsUnsorted = [(0, some 1), (1, some 5)]) := by
  constructor
  · refine ⟨by decide, by decide, by decide, by decide⟩
  · refine ⟨by decide, by decide, by decide⟩

/-- Claim C5 (amended): for every weather dataframe whose date_time column
is sorted (as polars group_by_dynamic requires) and every calendar month
present in the data whose temperature_c cells are all present, the polars
group_by_dynamic median over 1mo windows and the pandas resample M median
of that month agree on the same value; with unsorted data polars raises,
and for a month containing a missing temperature np.median reports NaN
while polars skips nulls. -/
theorem C5_monthly_median_equiv (rows : List WRow) (m : Nat)
    (hsort : monthsSorted (monthsOf rows) = true)
    (hm : m ∈ monthsOf rows)
    (hclean : (valuesIn m rows).all (fun v => v.isSome) = true) :
    ∃ v : ℚ,
      (∃ out, pl_group_by_dynamic_median rows = some out ∧
        List.lookup m out = some (some v)) ∧
      List.lookup m (pandas_resample_M_median rows) = some (some v) := by
  have hvals : valuesIn m rows ≠ [] := valuesIn_ne_nil hm
  obtain ⟨v, hv⟩ := medianQ_isSome (filterMap_id_ne_nil hvals hclean)
  refine ⟨v, ⟨(monthsOf rows).dedup.map (fun m => (m, pl_median (valuesIn m rows))),
    ?_, ?_⟩, ?_⟩
  · simp [pl_group_by_dynamic_median, hsort]
  · have hmem : m ∈ (monthsOf rows).dedup := List.mem_dedup.mpr hm
    rw [lookup_map_self (fun m => pl_median (valuesIn m rows)) _ m hmem]
    simp [pl_median, hv]
  · unfold pandas_resample_M_median
    have hne : rows.isEmpty = false := by
      cases rows with
      | nil => exact absurd hm (List.not_mem_nil m)
      | cons _ _ => rfl
    rw [hne, if_neg (by decide)]
    have h1 : minMonth rows ≤ m := minMonth_le hm
    have h2 : m ≤ maxMonth rows := maxMonth_ge hm
    have hmem : m ∈ List.range' (minMonth rows) (maxMonth rows + 1 - minMonth rows) := by
      rw [List.mem_range'_1]
      omega
    rw [lookup_map_self (fun m => pd_median_np (valuesIn m rows)) _ m hmem]
    simp [pd_median_np, any_isNone_eq_false hclean, hv]

/-- Claim C5 amended witness: month 0 of the sorted, fully present rows
holds temperatures 1 and 3, and both pipelines report its median as 2. -/
theorem C5_monthly_median_witness :
    monthsSorted (monthsOf c5Rows) = true ∧
    0 ∈ monthsOf c5Rows ∧
    (valuesIn 0 c5Rows).all (fun v => v.isSome) = true ∧
    (∃ v : ℚ,
      (∃ out, pl_group_by_dynamic_median c5Rows = some out ∧
        List.lookup 0 out = some (some v)) ∧
      List.lookup 0 (pandas_resample_M_median c5Rows) = some (some v)) :=
  ⟨by decide, by decide, by decide,
    C5_monthly_median_equiv c5Rows 0 (by decide) (by decide) (by decide)⟩

/-! ### Claim C6 -/

/-- Wrap-around is the identity inside the signed 64-bit range. -/
theorem wrap64_eq_self {z : Int} (hlo : int64Lo ≤ z) (hhi : z ≤ int64Hi) :
    wrap64 z = z := by
  unfold int64Lo at hlo
  unfold int64Hi at hhi
  unfold wrap64
  have h2 : (2 : Int) ^ 64 = 2 ^ 63 + 2 ^ 63 := by ring
  have hmod : (z + 2 ^ 63) % 2 ^ 64 = z + 2 ^ 63 :=
    Int.emod_eq_of_lt (by linarith) (by linarith)
  rw [hmod]
  ring

/-- Claim C6 counterexample: the int64 second count ten to the tenth is a
valid input to the polars expression (times 1000, cast to Datetime in ms),
but pandas to_datetime with unit s raises OutOfBoundsDatetime on it because
the nanosecond value leaves the signed 64-bit range, so the two do not
denote the same instant for every int64 second count. -/
theorem C6_counterexample :
    (int64Lo ≤ (10000000000 : Int) ∧ (10000000000 : Int) ≤ int64Hi) ∧
    pd_to_datetime_unit_s 10000000000 = none ∧
    pd_to_datetime_unit_s 10000000000 ≠ some (pl_instant_ns 10000000000) := by
  refine ⟨⟨by decide, by decide⟩, by decide, by decide⟩

/-- Claim C6 (amended): for every int64 second count s whose nanosecond
value s times ten to the ninth stays in the signed 64-bit range (exactly the
inputs on which pandas to_datetime with unit s succeeds), the polars value
s times 1000 cast to Datetime in ms denotes the same instant as the pandas
datetime64 in ns, with the arithmetic exact over the integers; outside that
range pandas raises while the polars expression still produces a value. -/
theorem C6_timestamp_equiv (s : Int)
    (hlo : int64Lo ≤ s * 10 ^ 9) (hhi : s * 10 ^ 9 ≤ int64Hi) :
    pd_to_datetime_unit_s s = some (pl_instant_ns s) := by
  have hlo1000 : int64Lo ≤ s * 1000 := by
    unfold int64Lo at *
    unfold int64Hi at hhi
    rcases le_or_lt 0 s with hs | hs
    · have : (0 : Int) ≤ s * 1000 := by positivity
      have hp : (0 : Int) < 2 ^ 63 := by positivity
      linarith
    · have hmul : s * 10 ^ 9 ≤ s * 1000 := by
        have : (1000 : Int) ≤ 10 ^ 9 := by norm_num
        nlinarith
      linarith
  have hhi1000 : s * 1000 ≤ int64Hi := by
    unfold int64Hi at *
    unfold int64Lo at hlo
    rcases le_or_lt 0 s with hs | hs
    · have hmul : s * 1000 ≤ s * 10 ^ 9 := by
        have : (1000 : Int) ≤ 10 ^ 9 := by norm_num
        nlinarith
      linarith
    · have : s * 1000 < 0 := by
        have : (0 : Int) < 1000 := by norm_num
        exact mul_neg_of_neg_of_pos hs this
      have hp : (0 : Int) < 2 ^ 63 := by positivity
      linarith
  unfold pd_to_datetime_unit_s
  rw [if_pos ⟨hlo, hhi⟩]
  unfold pl_instant_ns pl_cast_ms
  rw [wrap64_eq_self hlo1000 hhi1000]
  congr 1
  ring

/-- Claim C6 amended witness: at s = 3 the hypotheses hold and both sides
denote three seconds after the epoch. -/
theorem C6_timestamp_equiv_witness :
    (int64Lo ≤ (3 : Int) * 10 ^ 9 ∧ (3 : Int) * 10 ^ 9 ≤ int64Hi) ∧
    pd_to_datetime_unit_s 3 = some (pl_instant_ns 3) :=
  ⟨⟨by decide, by decide⟩, C6_timestamp_equiv 3 (by decide) (by decide)⟩

end Cookbook
